import Mathlib

/-!
Shallow embedding of the peer-to-peer real-time communication core of the
`letspanic` chat application: the voice-room mesh hook
(`src/hooks/useVoiceRoom.ts`) and the 1:1 call-signaling hook
(`useCallSystem`).  JavaScript `Record<string, T>` maps are embedded as
association lists with JS-style lookup / assignment / delete; effectful
calls (track.stop, channel.send, toast, message insert) are embedded as
append-only effect logs in the state.
-/

/-! ## JS `Record<string, β>` as an association list -/

def recLookup {β : Type} (k : String) : List (String × β) → Option β
  | [] => none
  | (k', v) :: rest => if k' = k then some v else recLookup k rest

def recInsert {β : Type} (k : String) (v : β) : List (String × β) → List (String × β)
  | [] => [(k, v)]
  | (k', v') :: rest => if k' = k then (k', v) :: rest else (k', v') :: recInsert k v rest

def recErase {β : Type} (k : String) : List (String × β) → List (String × β)
  | [] => []
  | (k', v') :: rest => if k' = k then recErase k rest else (k', v') :: recErase k rest

theorem recLookup_insert_self {β : Type} (k : String) (v : β) (l : List (String × β)) :
    recLookup k (recInsert k v l) = some v := by
  induction l with
  | nil => simp [recInsert, recLookup]
  | cons hd tl ih =>
    obtain ⟨k', v'⟩ := hd
    by_cases h : k' = k
    · simp [recInsert, recLookup, h]
    · simp [recInsert, recLookup, h, ih]

theorem recLookup_erase_self {β : Type} (k : String) (l : List (String × β)) :
    recLookup k (recErase k l) = none := by
  induction l with
  | nil => simp [recErase, recLookup]
  | cons hd tl ih =>
    obtain ⟨k', v'⟩ := hd
    by_cases h : k' = k
    · simp [recErase, h, ih]
    · simp [recErase, recLookup, h, ih]

/-! ## WebRTC primitives (voice room) -/

/-- An ICE candidate (`RTCIceCandidateInit`), carried opaquely by the hook. -/
abbrev Candidate := String

structure MediaStreamTrack where
  id : Nat
  enabled : Bool
  deriving DecidableEq, Repr

structure MediaStream where
  tracks : List MediaStreamTrack
  deriving DecidableEq, Repr

/-- Native peer connection handle, as observed by `useVoiceRoom`:
remote description, the candidates applied so far (in application order),
the STUN configuration, and the local tracks attached at creation. -/
structure RTCPeerConnection where
  id : Nat
  iceServers : List String
  attachedTrackIds : List Nat
  remoteDescription : Option String
  appliedCandidates : List Candidate
  deriving DecidableEq, Repr

/-- The three public STUN resolution servers configured in `createPeerConnection`. -/
def stunServers : List String :=
  ["stun:stun.l.google.com:19302", "stun:stun1.l.google.com:19302",
   "stun:stun2.l.google.com:19302"]

structure Participant where
  user_id : String
  streamTrackIds : List Nat
  deriving DecidableEq, Repr

/-- Mesh signaling events sent over the room broadcast channel. -/
inductive VoiceEvent
  | joinRequest
  | leaveEvent
  deriving DecidableEq, Repr

/-- Channel lifecycle status values reported to the subscribe callback. -/
inductive ChannelStatus
  | subscribed
  | closed
  | other
  deriving DecidableEq, Repr

/-- The mutable state of one `useVoiceRoom` hook instance: the refs
(`peerConnections`, `iceCandidatesQueue`, `channelRef`, `localStreamRef`,
`reconnectAttempts`, `reconnectTimer`), the React state that the claims
observe (`participants`, `inAudioRoom`), and effect logs for
`track.stop()` calls, outbound broadcast sends, and toast notices. -/
structure VoiceRoomState where
  peerConnections : List (String × RTCPeerConnection)
  iceCandidatesQueue : List (String × List Candidate)
  channel : Option String
  localStream : Option MediaStream
  participants : List Participant
  reconnectAttempts : List (String × Nat)
  reconnectTimers : List (String × Nat)
  inAudioRoom : Bool
  sharedAudioContextOpen : Bool
  nextPcId : Nat
  stoppedTrackIds : List Nat
  sentEvents : List VoiceEvent
  toasts : List String
  deriving DecidableEq, Repr

/-- Embeds `addIceCandidate(senderId, candidate)`: apply immediately when a peer
connection exists for `senderId` and its remote description is set;
otherwise push onto that sender's queue (creating it if absent). -/
def addIceCandidate (s : VoiceRoomState) (senderId : String) (candidate : Candidate) :
    VoiceRoomState :=
  match recLookup senderId s.peerConnections with
  | some pc =>
    match pc.remoteDescription with
    | some _ =>
        let pc' := { pc with appliedCandidates := pc.appliedCandidates ++ [candidate] }
        { s with peerConnections := recInsert senderId pc' s.peerConnections }
    | none =>
        let q := (recLookup senderId s.iceCandidatesQueue).getD [] ++ [candidate]
        { s with iceCandidatesQueue := recInsert senderId q s.iceCandidatesQueue }
  | none =>
      let q := (recLookup senderId s.iceCandidatesQueue).getD [] ++ [candidate]
      { s with iceCandidatesQueue := recInsert senderId q s.iceCandidatesQueue }

/-- Embeds `processIceQueue(senderId)`: when the connection exists and its remote
description is set, apply every queued candidate in arrival order and delete
the queue entry; otherwise do nothing. -/
def processIceQueue (s : VoiceRoomState) (senderId : String) : VoiceRoomState :=
  let candidates := (recLookup senderId s.iceCandidatesQueue).getD []
  match recLookup senderId s.peerConnections with
  | some pc =>
    match pc.remoteDescription with
    | some _ =>
        let pc' := { pc with appliedCandidates := pc.appliedCandidates ++ candidates }
        { s with
          peerConnections := recInsert senderId pc' s.peerConnections
          iceCandidatesQueue := recErase senderId s.iceCandidatesQueue }
    | none => s
  | none => s

/-- Embeds `createPeerConnection(targetUserId, stream)`: return the existing entry
when present; otherwise build a connection configured with the STUN list,
attach every track of `stream`, and register it. -/
def createPeerConnection (s : VoiceRoomState) (targetUserId : String) (stream : MediaStream) :
    RTCPeerConnection × VoiceRoomState :=
  match recLookup targetUserId s.peerConnections with
  | some pc => (pc, s)
  | none =>
      let pc : RTCPeerConnection :=
        { id := s.nextPcId
          iceServers := stunServers
          attachedTrackIds := stream.tracks.map MediaStreamTrack.id
          remoteDescription := none
          appliedCandidates := [] }
      let s' := { s with peerConnections := recInsert targetUserId pc s.peerConnections,
                         nextPcId := s.nextPcId + 1 }
      (pc, s')

/-- Track ids of the current local stream (empty when none). -/
def localTrackIds (s : VoiceRoomState) : List Nat :=
  match s.localStream with
  | some m => m.tracks.map MediaStreamTrack.id
  | none => []

/-- Embeds `cleanup()`: clear all reconnect timers, close every peer connection and
empty the registry, drop every candidate queue, stop every local track and
drop the stream, empty the participant list, remove the channel, close the
shared audio context, and reset `inAudioRoom`. -/
def cleanup (s : VoiceRoomState) : VoiceRoomState :=
  { s with
    reconnectTimers := []
    peerConnections := []
    iceCandidatesQueue := []
    stoppedTrackIds := s.stoppedTrackIds ++ localTrackIds s
    localStream := none
    participants := []
    channel := none
    sharedAudioContextOpen := false
    inAudioRoom := false }

/-- Embeds `leaveRoom()`: broadcast a best-effort `leave` event when a channel is
present, then run `cleanup`. -/
def leaveRoom (s : VoiceRoomState) : VoiceRoomState :=
  cleanup
    (match s.channel with
     | some _ => { s with sentEvents := s.sentEvents ++ [VoiceEvent.leaveEvent] }
     | none => s)

/-- The subscribe status callback installed by `initChannel` for room
`targetRoomId`: on SUBSCRIBED reset the attempt counter and broadcast a
`join-request`; on CLOSED, when fewer than 3 attempts were made, increment
the counter and schedule a rejoin after `1500 * attemptNumber` ms (returned
as the second component; `none` means no attempt was scheduled). -/
def channelStatusStep (s : VoiceRoomState) (targetRoomId : String) (status : ChannelStatus) :
    VoiceRoomState × Option Nat :=
  match status with
  | .subscribed =>
      let s' := { s with reconnectAttempts := recInsert targetRoomId 0 s.reconnectAttempts,
                         sentEvents := s.sentEvents ++ [VoiceEvent.joinRequest] }
      (s', none)
  | .closed =>
      let attempts := (recLookup targetRoomId s.reconnectAttempts).getD 0
      if attempts < 3 then
        let s' := { s with
                    reconnectAttempts := recInsert targetRoomId (attempts + 1) s.reconnectAttempts
                    reconnectTimers := recInsert targetRoomId (1500 * (attempts + 1)) s.reconnectTimers }
        (s', some (1500 * (attempts + 1)))
      else (s, none)
  | .other => (s, none)

/-- Feed `n` consecutive CLOSED statuses to the status callback and collect
the scheduled delays in order. -/
def runClosedSteps (s : VoiceRoomState) (room : String) : Nat → VoiceRoomState × List (Option Nat)
  | 0 => (s, [])
  | n + 1 =>
      let step := channelStatusStep s room ChannelStatus.closed
      let rest := runClosedSteps step.1 room n
      (rest.1, step.2 :: rest.2)

/-- A freshly mounted hook instance: every ref map empty, no channel, no
local stream. -/
def initVoiceState : VoiceRoomState :=
  { peerConnections := []
    iceCandidatesQueue := []
    channel := none
    localStream := none
    participants := []
    reconnectAttempts := []
    reconnectTimers := []
    inAudioRoom := false
    sharedAudioContextOpen := false
    nextPcId := 0
    stoppedTrackIds := []
    sentEvents := []
    toasts := [] }

/-! ## 1:1 call signaling (`useCallSystem`) -/

inductive CallState
  | idle
  | outgoing
  | incoming
  | connected
  | ending
  deriving DecidableEq, Repr

structure Profile where
  user_id : String
  display_name : Option String
  deriving DecidableEq, Repr

structure CallData where
  conversationId : String
  roomId : String
  otherUser : Profile
  isInitiator : Bool
  deriving DecidableEq, Repr

/-- Outbound call-signaling events, each addressed to the inbox channel of
`targetChannelUser` (subscribe, send once, release). -/
inductive CallEvent
  | invite (targetChannelUser : String) (conversation_id : String) (room_id : String)
      (caller_id : String)
  | accept (targetChannelUser : String) (conversation_id : String) (responder_id : String)
  | reject (targetChannelUser : String) (conversation_id : String) (responder_id : String)
  | cancel (targetChannelUser : String) (conversation_id : String)
  | endEvent (targetChannelUser : String) (conversation_id : String)
  deriving DecidableEq, Repr

inductive CallLogStatus
  | ended
  | missed
  | declined
  deriving DecidableEq, Repr

/-- The JSON `content` of a call-log message row, as built by `logCall`. -/
inductive CallLogContent
  | callLogEnded (duration : String)
  | callLogMissed
  | callLogDeclined
  deriving DecidableEq, Repr

/-- One row inserted into the `messages` table by `logCall`. -/
structure MessageRecord where
  conversation_id : String
  sender_id : String
  content : CallLogContent
  message_type : String
  deriving DecidableEq, Repr

/-- The state of one `useCallSystem` hook instance: the hook arguments
(`userId`, `userProfile`), the call state and data, the start-time ref, the
ringing interval, and effect logs for outbound sends, durable message
inserts, and toast notices. -/
structure CallSys where
  userId : Option String
  userProfile : Option Profile
  callState : CallState
  callData : Option CallData
  startTime : Option Nat
  ringing : Bool
  sentEvents : List CallEvent
  messages : List MessageRecord
  toasts : List String
  deriving DecidableEq, Repr

/-- Payload of an inbound `invite` broadcast. -/
structure InvitePayload where
  conversation_id : String
  room_id : Option String
  caller_id : String
  deriving DecidableEq, Repr

/-- JS `a || b` on an optional string: falls back when absent or empty. -/
def jsOrString (a : Option String) (b : String) : String :=
  match a with
  | some x => if x = "" then b else x
  | none => b

/-- The `invite` handler: when not idle, return (busy, nothing sent); when
idle, fetch the caller's profile and, only if one was found, record the call
data, enter `incoming` and start the ring pattern. `profileLookup` embeds
the `profiles` table query by `user_id`. -/
def onInvite (s : CallSys) (p : InvitePayload) (profileLookup : String → Option Profile) :
    CallSys :=
  if s.callState ≠ CallState.idle then s
  else
    match profileLookup p.caller_id with
    | some callerProfile =>
        let cd : CallData :=
          { conversationId := p.conversation_id
            roomId := jsOrString p.room_id p.conversation_id
            otherUser := callerProfile
            isInitiator := false }
        { s with callData := some cd, callState := CallState.incoming, ringing := true }
    | none => s

/-- Conversation id of the current call data, when present. -/
def callDataConvId (s : CallSys) : Option String :=
  s.callData.map CallData.conversationId

/-- The `accept` handler: only in `outgoing` state with a matching
conversation id does the session go `connected`, record the start time and
stop ringing. -/
def onAccept (s : CallSys) (conversation_id : String) (now : Nat) : CallSys :=
  if s.callState = CallState.outgoing ∧ callDataConvId s = some conversation_id then
    { s with callState := CallState.connected, startTime := some now, ringing := false }
  else s

/-- The `reject` handler: only in `outgoing` state with a matching
conversation id does the session go idle, clear the call data, stop ringing
and toast a transient notice. -/
def onReject (s : CallSys) (conversation_id : String) : CallSys :=
  if s.callState = CallState.outgoing ∧ callDataConvId s = some conversation_id then
    { s with callState := CallState.idle, callData := none, ringing := false,
             toasts := s.toasts ++ ["Call declined"] }
  else s

/-- JS `padStart(2, '0')` on a decimal string. -/
def padStart2 (str : String) : String :=
  if str.length < 2 then "0" ++ str else str

/-- JS `%` on non-negative numbers: `x - y * Math.floor(x / y)`. -/
def jsFloatMod (x y : ℚ) : ℚ := x - y * (⌊x / y⌋ : ℚ)

/-- The `durationText` computed by `logCall` from a duration in seconds. -/
def durationTextOf (duration : ℚ) : String :=
  if 0 < duration then
    toString ⌊duration / 60⌋ ++ ":" ++ padStart2 (toString ⌊jsFloatMod duration 60⌋)
  else ""

/-- Embeds `logCall(status, duration)`: when a conversation id and user id are
present (and truthy), insert one system message row into the owning
conversation; the `ended` content carries the formatted duration text. -/
def logCall (s : CallSys) (status : CallLogStatus) (duration : ℚ) : CallSys :=
  match s.callData, s.userId with
  | some cd, some uid =>
      if cd.conversationId = "" ∨ uid = "" then s
      else
        let content : CallLogContent :=
          match status with
          | .ended => CallLogContent.callLogEnded (durationTextOf duration)
          | .missed => CallLogContent.callLogMissed
          | .declined => CallLogContent.callLogDeclined
        let row : MessageRecord :=
          { conversation_id := cd.conversationId
            sender_id := uid
            content := content
            message_type := "system" }
        { s with messages := s.messages ++ [row] }
  | _, _ => s

/-- Embeds `initiateCall(conversationId, targetUser)` with the freshly generated
`roomId` passed explicitly: record the call data as initiator, enter
`outgoing`, start the calling tone, and send an `invite` to the target's
inbox channel. -/
def initiateCall (s : CallSys) (conversationId : String) (targetUser : Profile)
    (roomId : String) : CallSys :=
  match s.userId, s.userProfile with
  | some uid, some _ =>
      if uid = "" then s
      else
        let cd : CallData :=
          { conversationId := conversationId
            roomId := roomId
            otherUser := targetUser
            isInitiator := true }
        let ev := CallEvent.invite targetUser.user_id conversationId roomId uid
        { s with callData := some cd, callState := CallState.outgoing, ringing := true,
                 sentEvents := s.sentEvents ++ [ev] }
  | _, _ => s

/-- Embeds `cancelCall()`: with call data and a truthy user id, stop ringing, log a
`missed` record, send `cancel` to the remote party's inbox, and clear the
call state and data. -/
def cancelCall (s : CallSys) : CallSys :=
  match s.callData, s.userId with
  | some cd, some uid =>
      if uid = "" then s
      else
        let s1 := { s with ringing := false }
        let s2 := logCall s1 CallLogStatus.missed 0
        let s3 := { s2 with
                    sentEvents := s2.sentEvents ++
                      [CallEvent.cancel cd.otherUser.user_id cd.conversationId] }
        { s3 with callState := CallState.idle, callData := none }
  | _, _ => s

/-- Embeds `endCall()` at wall-clock time `now` (ms): with call data and a truthy
user id, stop ringing, compute the elapsed duration in seconds when
connected with a truthy start time, log an `ended` record, send `end` to the
remote party's inbox, and clear call state, data and start time. -/
def endCall (s : CallSys) (now : Nat) : CallSys :=
  match s.callData, s.userId with
  | some cd, some uid =>
      if uid = "" then s
      else
        let s1 := { s with ringing := false }
        let duration : ℚ :=
          match s.startTime with
          | some t0 =>
              if s.callState = CallState.connected ∧ t0 ≠ 0 then
                ((now : ℚ) - (t0 : ℚ)) / 1000
              else 0
          | none => 0
        let s2 := logCall s1 CallLogStatus.ended duration
        let s3 := { s2 with
                    sentEvents := s2.sentEvents ++
                      [CallEvent.endEvent cd.otherUser.user_id cd.conversationId] }
        { s3 with callState := CallState.idle, callData := none, startTime := none }
  | _, _ => s

/-! ## Concrete fixture states -/

def profAlice : Profile := { user_id := "alice", display_name := some "Alice" }

def profBob : Profile := { user_id := "bob", display_name := some "Bob" }

def profCarol : Profile := { user_id := "carol", display_name := some "Carol" }

def idleCallSys : CallSys :=
  { userId := some "bob"
    userProfile := some profBob
    callState := CallState.idle
    callData := none
    startTime := none
    ringing := false
    sentEvents := []
    messages := []
    toasts := [] }

def busyCallSys : CallSys := { idleCallSys with callState := CallState.connected }

def outgoingCallSys : CallSys :=
  { idleCallSys with
    callState := CallState.outgoing
    callData := some { conversationId := "conv1", roomId := "room1",
                       otherUser := profAlice, isInitiator := true }
    ringing := true }

def connectedCallSys : CallSys :=
  { outgoingCallSys with
    callState := CallState.connected
    startTime := some 1000
    ringing := false }

def lookupAlice : String → Option Profile := fun _ => some profAlice

def lookupNone : String → Option Profile := fun _ => none

def invitePayloadA : InvitePayload :=
  { conversation_id := "conv9", room_id := some "room9", caller_id := "alice" }

def icePc : RTCPeerConnection :=
  { id := 0, iceServers := stunServers, attachedTrackIds := [],
    remoteDescription := some "desc", appliedCandidates := [] }

def iceStateA : VoiceRoomState :=
  { initVoiceState with iceCandidatesQueue := [("peer1", ["cand1"])] }

def iceStateB : VoiceRoomState :=
  { initVoiceState with
    peerConnections := [("peer1", icePc)]
    iceCandidatesQueue := [("peer1", ["cand1", "cand2"])] }

def exhaustedVoiceState : VoiceRoomState := (runClosedSteps initVoiceState "roomA" 3).1

/-! ## Claim theorems -/

/-- Claim C9: calling `createPeerConnection` a second time for the same peer
id returns the very same connection and leaves the registry state unchanged
(idempotent get-or-create, no duplicate entry). -/
theorem createPeerConnection_idempotent (s : VoiceRoomState) (p : String)
    (stream : MediaStream) :
    createPeerConnection (createPeerConnection s p stream).2 p stream
      = ((createPeerConnection s p stream).1, (createPeerConnection s p stream).2) := by
  cases h : recLookup p s.peerConnections with
  | some pc => simp [createPeerConnection, h]
  | none => simp [createPeerConnection, h, recLookup_insert_self]

/-- Claim C3: an inbound `invite` received while the call-signaling session
is non-idle leaves the whole state unchanged — `callState` and `callData`
are untouched and no busy signal is sent back. -/
theorem busy_invite_ignored (s : CallSys) (p : InvitePayload)
    (profileLookup : String → Option Profile) (h : s.callState ≠ CallState.idle) :
    onInvite s p profileLookup = s := by
  simp [onInvite, h]

theorem busy_invite_ignored_witness :
    onInvite busyCallSys invitePayloadA lookupAlice = busyCallSys :=
  busy_invite_ignored busyCallSys invitePayloadA lookupAlice (by decide)

/-- Claim C10: an inbound `invite` received while idle whose caller-profile
lookup yields no profile is ignored entirely: the state (including
`callState`, `callData` and the ring cue) is unchanged. -/
theorem invite_without_profile_ignored (s : CallSys) (p : InvitePayload)
    (profileLookup : String → Option Profile) (h1 : s.callState = CallState.idle)
    (h2 : profileLookup p.caller_id = none) :
    onInvite s p profileLookup = s := by
  simp [onInvite, h1, h2]

theorem invite_without_profile_ignored_witness :
    onInvite idleCallSys invitePayloadA lookupNone = idleCallSys :=
  invite_without_profile_ignored idleCallSys invitePayloadA lookupNone rfl rfl

/-- Claim C5: `leaveRoom` from any state tears everything down — empty
connection registry, empty candidate-queue map, no reconnect timers, every
local track stopped and the stream dropped, channel unsubscribed, empty
participant list — and running it again from the result changes nothing. -/
theorem leaveRoom_teardown_idempotent (s : VoiceRoomState) :
    (leaveRoom s).peerConnections = []
    ∧ (leaveRoom s).iceCandidatesQueue = []
    ∧ (leaveRoom s).reconnectTimers = []
    ∧ (leaveRoom s).localStream = none
    ∧ (leaveRoom s).stoppedTrackIds = s.stoppedTrackIds ++ localTrackIds s
    ∧ (leaveRoom s).channel = none
    ∧ (leaveRoom s).participants = []
    ∧ (leaveRoom s).inAudioRoom = false
    ∧ leaveRoom (leaveRoom s) = leaveRoom s := by
  cases h : s.channel <;> simp [leaveRoom, cleanup, localTrackIds, h]

/-- Claim C2: after any SUBSCRIBED status the per-room attempt counter is 0,
and four consecutive CLOSED statuses then schedule reconnection attempts
with delays 1500 ms, 3000 ms, 4500 ms and finally schedule nothing. -/
theorem reconnect_schedule_and_reset (s : VoiceRoomState) (room : String) :
    recLookup room (channelStatusStep s room ChannelStatus.subscribed).1.reconnectAttempts
      = some 0
    ∧ (runClosedSteps (channelStatusStep s room ChannelStatus.subscribed).1 room 4).2
      = [some 1500, some 3000, some 4500, none] := by
  simp [channelStatusStep, runClosedSteps, recLookup_insert_self]

/-- Claim C6 counterexample: in the state reached after the third scheduled
reconnection attempt, a further CLOSED status schedules nothing and the
toast log — the hook's only user-visible notice channel — is still empty:
no explicit user-visible terminal-failure notice is surfaced. -/
theorem reconnect_exhaustion_no_notice_cex :
    (channelStatusStep exhaustedVoiceState "roomA" ChannelStatus.closed).1.toasts = []
    ∧ (channelStatusStep exhaustedVoiceState "roomA" ChannelStatus.closed).2 = none
    ∧ recLookup "roomA" exhaustedVoiceState.reconnectAttempts = some 3 := by
  decide

/-- Claim C6 (amended): once the attempt counter for a room has reached 3, a
further CLOSED status is a no-op — the state is unchanged (so the session
stays disconnected and, in particular, no user-visible notice is produced)
and no further attempt is scheduled. -/
theorem reconnect_exhaustion_silent (s : VoiceRoomState) (room : String)
    (h : recLookup room s.reconnectAttempts = some 3) :
    channelStatusStep s room ChannelStatus.closed = (s, none) := by
  simp [channelStatusStep, h]

theorem reconnect_exhaustion_silent_witness :
    channelStatusStep exhaustedVoiceState "roomA" ChannelStatus.closed
      = (exhaustedVoiceState, none) :=
  reconnect_exhaustion_silent exhaustedVoiceState "roomA" (by decide)

/-- Claim C1: when no connection exists for a peer or its remote description
is unset, `addIceCandidate` appends the candidate to that peer's queue and
touches no connection; and once a connection with a set remote description
exists, `processIceQueue` applies every queued candidate in arrival order
and removes the peer's queue entry. -/
theorem iceCandidate_enqueue_and_drain (s : VoiceRoomState) (p : String) (c : Candidate)
    (pc : RTCPeerConnection) (d : String) :
    ((∀ pc0, recLookup p s.peerConnections = some pc0 → pc0.remoteDescription = none) →
      recLookup p (addIceCandidate s p c).iceCandidatesQueue
        = some ((recLookup p s.iceCandidatesQueue).getD [] ++ [c])
      ∧ (addIceCandidate s p c).peerConnections = s.peerConnections)
    ∧ (recLookup p s.peerConnections = some pc → pc.remoteDescription = some d →
      recLookup p (processIceQueue s p).peerConnections
        = some { pc with appliedCandidates :=
            pc.appliedCandidates ++ (recLookup p s.iceCandidatesQueue).getD [] }
      ∧ recLookup p (processIceQueue s p).iceCandidatesQueue = none) := by
  constructor
  · intro h
    cases hpc : recLookup p s.peerConnections with
    | none => simp [addIceCandidate, hpc, recLookup_insert_self]
    | some pc0 =>
      have hrd := h pc0 hpc
      simp [addIceCandidate, hpc, hrd, recLookup_insert_self]
  · intro hpc hrd
    simp [processIceQueue, hpc, hrd, recLookup_insert_self, recLookup_erase_self]

theorem iceCandidate_enqueue_and_drain_witness :
    (recLookup "peer1" (addIceCandidate iceStateA "peer1" "cand2").iceCandidatesQueue
       = some ((recLookup "peer1" iceStateA.iceCandidatesQueue).getD [] ++ ["cand2"])
     ∧ (addIceCandidate iceStateA "peer1" "cand2").peerConnections
       = iceStateA.peerConnections)
    ∧ (recLookup "peer1" (processIceQueue iceStateB "peer1").peerConnections
       = some { icePc with appliedCandidates :=
           icePc.appliedCandidates ++ (recLookup "peer1" iceStateB.iceCandidatesQueue).getD [] }
     ∧ recLookup "peer1" (processIceQueue iceStateB "peer1").iceCandidatesQueue = none) :=
  ⟨(iceCandidate_enqueue_and_drain iceStateA "peer1" "cand2" icePc "desc").1
      (fun _pc0 h0 => Option.noConfusion h0),
   (iceCandidate_enqueue_and_drain iceStateB "peer1" "cand2" icePc "desc").2 rfl rfl⟩

/-- Claim C7 counterexample: from an outgoing call for `conv1`, an inbound
`reject` for `conv1` does perform the outgoing-to-idle transition but the
durable message log stays empty — no call-outcome record is written on the
reject path. -/
theorem reject_writes_no_record_cex :
    (onReject outgoingCallSys "conv1").callState = CallState.idle
    ∧ (onReject outgoingCallSys "conv1").callData = none
    ∧ (onReject outgoingCallSys "conv1").messages = [] := by
  decide

/-- Claim C7 (amended): on an inbound `reject` matching the current
conversation while outgoing, the session stops ringing, clears the call
metadata and shows only a transient "Call declined" toast — it writes no
durable record (the state equation leaves `messages` untouched); on a local
`cancelCall`, the session stops ringing, writes a durable `missed` record
via the messaging subsystem, sends `cancel`, and clears the call metadata. -/
theorem outgoing_to_idle_logging (s : CallSys) (cd : CallData) (uid : String)
    (hcd : s.callData = some cd) (hu : s.userId = some uid) (hne : uid ≠ "")
    (hc : cd.conversationId ≠ "") :
    (s.callState = CallState.outgoing ∧ callDataConvId s = some cd.conversationId →
      onReject s cd.conversationId
        = { s with callState := CallState.idle, callData := none, ringing := false,
                   toasts := s.toasts ++ ["Call declined"] })
    ∧ (cancelCall s).callState = CallState.idle
    ∧ (cancelCall s).callData = none
    ∧ (cancelCall s).ringing = false
    ∧ (cancelCall s).messages = s.messages ++
        [{ conversation_id := cd.conversationId, sender_id := uid,
           content := CallLogContent.callLogMissed, message_type := "system" }]
    ∧ (cancelCall s).sentEvents = s.sentEvents ++
        [CallEvent.cancel cd.otherUser.user_id cd.conversationId] := by
  refine ⟨?_, ?_⟩
  · intro h
    simp [onReject, h.1, h.2]
  · simp [cancelCall, logCall, hcd, hu, hne, hc]

theorem outgoing_to_idle_logging_witness :
    onReject outgoingCallSys "conv1"
      = { outgoingCallSys with callState := CallState.idle, callData := none,
                               ringing := false,
                               toasts := outgoingCallSys.toasts ++ ["Call declined"] }
    ∧ (cancelCall outgoingCallSys).messages
      = outgoingCallSys.messages ++
        [{ conversation_id := "conv1", sender_id := "bob",
           content := CallLogContent.callLogMissed, message_type := "system" }]
    ∧ (cancelCall outgoingCallSys).callState = CallState.idle := by
  have h := outgoing_to_idle_logging outgoingCallSys
    { conversationId := "conv1", roomId := "room1", otherUser := profAlice, isInitiator := true }
    "bob" rfl rfl (by decide) (by decide)
  exact ⟨h.1 (by decide), h.2.2.2.2.1, h.2.1⟩

/-- Claim C8: ending a call 125 seconds after it reached `connected` writes
a durable call-ended record whose formatted duration string is "2:05"
(minutes are the floor of seconds / 60, remaining seconds zero-padded to
two digits). -/
theorem endCall_logs_formatted_duration (s : CallSys) (cd : CallData) (uid : String) (t0 : Nat)
    (hcd : s.callData = some cd) (hu : s.userId = some uid) (hne : uid ≠ "")
    (hc : cd.conversationId ≠ "") (hst : s.callState = CallState.connected)
    (ht : s.startTime = some t0) (ht0 : t0 ≠ 0) :
    (endCall s (t0 + 125000)).messages
      = s.messages ++
        [{ conversation_id := cd.conversationId, sender_id := uid,
           content := CallLogContent.callLogEnded "2:05", message_type := "system" }] := by
  have h1 : (⌊(125 : ℚ) / 60⌋ : ℤ) = 2 := by norm_num
  have h2 : (⌊jsFloatMod 125 60⌋ : ℤ) = 5 := by
    have h5 : jsFloatMod 125 60 = 5 := by
      unfold jsFloatMod
      rw [h1]
      norm_num
    rw [h5]
    norm_num
  have h3 : (0 : ℚ) < 125 := by norm_num
  have htext : durationTextOf 125 = "2:05" := by
    simp only [durationTextOf]
    rw [if_pos h3, h1, h2]
    decide
  have hq : (125000 : ℚ) / 1000 = 125 := by norm_num
  simp [endCall, logCall, hcd, hu, hne, hc, hst, ht, ht0, hq, htext]

theorem endCall_logs_formatted_duration_witness :
    (endCall connectedCallSys 126000).messages
      = [{ conversation_id := "conv1", sender_id := "bob",
           content := CallLogContent.callLogEnded "2:05", message_type := "system" }] := by
  have h := endCall_logs_formatted_duration connectedCallSys
    { conversationId := "conv1", roomId := "room1", otherUser := profAlice, isInitiator := true }
    "bob" 1000 rfl rfl (by decide) (by decide) rfl rfl (by decide)
  simpa using h

/-- Claim C4: an inbound `accept` moves the session to `connected` (with the
start time recorded and ringback stopped) exactly when the state is
`outgoing` and the carried conversation id matches the current call data;
in particular, after cancelling a call for `c1` and starting a new outgoing
call for `c2 ≠ c1`, a late `accept` carrying `c1` leaves the new session
unchanged. -/
theorem accept_requires_matching_conversation (s : CallSys) (uid : String) (pr u1 u2 : Profile)
    (c1 c2 r1 r2 : String) (now : Nat)
    (hu : s.userId = some uid) (hne : uid ≠ "") (hpr : s.userProfile = some pr)
    (hcc : c1 ≠ c2) (hc1 : c1 ≠ "") :
    (s.callState = CallState.outgoing ∧ callDataConvId s = some c1 →
      onAccept s c1 now
        = { s with callState := CallState.connected, startTime := some now,
                   ringing := false })
    ∧ (¬ (s.callState = CallState.outgoing ∧ callDataConvId s = some c1) →
      onAccept s c1 now = s)
    ∧ onAccept (initiateCall (cancelCall (initiateCall s c1 u1 r1)) c2 u2 r2) c1 now
      = initiateCall (cancelCall (initiateCall s c1 u1 r1)) c2 u2 r2 := by
  refine ⟨?_, ?_, ?_⟩
  · intro h
    simp [onAccept, h.1, h.2]
  · intro h
    simp only [onAccept]
    rw [if_neg h]
  · simp [initiateCall, cancelCall, logCall, onAccept, callDataConvId,
          hu, hne, hpr, hc1, Ne.symm hcc]

theorem accept_requires_matching_conversation_witness :
    onAccept (initiateCall (cancelCall (initiateCall idleCallSys "conv1" profAlice "room1"))
        "conv2" profCarol "room2") "conv1" 5
      = initiateCall (cancelCall (initiateCall idleCallSys "conv1" profAlice "room1"))
          "conv2" profCarol "room2"
    ∧ onAccept idleCallSys "conv1" 5 = idleCallSys := by
  have h := accept_requires_matching_conversation idleCallSys "bob" profBob profAlice profCarol
    "conv1" "conv2" "room1" "room2" 5 rfl (by decide) rfl (by decide) (by decide)
  exact ⟨h.2.2, h.2.1 (by decide)⟩
